import Mathlib

set_option maxRecDepth 4000

/-!
Shallow embedding of the SEER US population-estimates parsing pipeline
(parse-seer-us-population-estimates.py): the line decoder `parse_line`,
the chunked reader `read_in_chunks`, and the in-memory path of
`process_seer_population_data`, together with theorems checking the
specification's claims against these definitions.
-/

/-- Python whitespace test used by str.split and str.strip (ASCII range,
which covers the SEER input format). -/
def isSpace (c : Char) : Bool :=
  c = ' ' || c = '\t' || c = '\n' || c = '\r' || c = '\x0b' || c = '\x0c'

/-- Helper for `splitWs`: accumulates the current token in reverse. -/
def splitWsAux : List Char → List Char → List (List Char)
  | [], acc => if acc.isEmpty then [] else [acc.reverse]
  | c :: cs, acc =>
    if isSpace c then
      if acc.isEmpty then splitWsAux cs []
      else acc.reverse :: splitWsAux cs []
    else splitWsAux cs (c :: acc)

/-- Python str.split() with no separator (source line 54): split on runs of
whitespace, producing no empty tokens. -/
def splitWs (cs : List Char) : List (List Char) := splitWsAux cs []

/-- Python slice s[a:b] for nonnegative bounds: clamps to the string and
never raises. -/
def pySlice (cs : List Char) (a b : Nat) : List Char := (cs.drop a).take (b - a)

/-- Python str.strip() (source line 141): remove leading and trailing
whitespace. -/
def pyStrip (cs : List Char) : List Char :=
  ((cs.dropWhile isSpace).reverse.dropWhile isSpace).reverse

def digitVal (c : Char) : Option Nat :=
  if ('0' ≤ c) && (c ≤ '9') then some (c.toNat - '0'.toNat) else none

def digitsToNatAux : Nat → List Char → Option Nat
  | acc, [] => some acc
  | acc, c :: cs =>
    match digitVal c with
    | some d => digitsToNatAux (acc * 10 + d) cs
    | none => none

/-- Value of a nonempty all-digit string; none on any other input. -/
def digitsToNat : List Char → Option Nat
  | [] => none
  | cs => digitsToNatAux 0 cs

/-- Python int() applied to the whitespace-free slices this parser feeds it:
an optional sign followed by at least one decimal digit, else a ValueError
(modelled as none). -/
def pyInt (cs : List Char) : Option Int :=
  match cs with
  | '+' :: rest => (digitsToNat rest).map (fun n => (n : Int))
  | '-' :: rest => (digitsToNat rest).map (fun n => -(n : Int))
  | _ => (digitsToNat cs).map (fun n => (n : Int))

/-- One decoded SEER population row: the dict built at source lines 102-115. -/
structure Record where
  Year : Int
  State : String
  State_FIPS : String
  County_FIPS : String
  Race_Code : Int
  Race : String
  Origin_Code : Int
  Origin : String
  Sex_Code : Int
  Sex : String
  Age : Int
  Population : Int
deriving DecidableEq, Repr

/-- Outcome of parse_line. The source returns a dict or None; the three None
paths are distinguishable by the diagnostic printed (source lines 56-57,
67-69, 116-119), matching the spec's Skip reasons. -/
inductive ParseOutcome where
  | ok (r : Record)
  | skipMalformed
  | skipFiltered
  | skipParseError
deriving DecidableEq, Repr

/-- Value passed as year_filter: None, an int, a set of ints, or a value of
any other type (list, tuple, frozenset, ...).  For the last, both isinstance
tests at source lines 66 and 68 fail, so no year check runs. -/
inductive YearFilter where
  | none
  | int (y : Int)
  | set (ys : List Int)
  | other
deriving DecidableEq, Repr

/-- Source lines 64-69: true when the decoded year is rejected by the filter. -/
def yearSkips : YearFilter → Int → Bool
  | YearFilter.none, _ => false
  | YearFilter.int y, year => year != y
  | YearFilter.set ys, year => !(ys.contains year)
  | YearFilter.other, _ => false

/-- Source lines 82-91: year-dependent race vocabulary. -/
def race_desc_of (year race : Int) : String :=
  if year < 1990 then
    if race = 1 then ("White") else if race = 2 then ("Black")
    else if race = 3 then ("Other") else ("Unknown")
  else
    if race = 1 then ("White") else if race = 2 then ("Black")
    else if race = 3 then ("American Indian/Alaska Native")
    else if race = 4 then ("Asian or Pacific Islander") else ("Unknown")

/-- Source lines 93-97: origin vocabulary, applied only for 1990 and later. -/
def origin_desc_of (year origin : Int) : String :=
  if year ≥ 1990 then
    if origin = 0 then ("Non-Hispanic") else if origin = 1 then ("Hispanic")
    else if origin = 9 then ("Not Applicable") else ("Unknown")
  else ("Not Applicable")

/-- Source line 100: sex vocabulary. -/
def sex_desc_of (sex : Int) : String :=
  if sex = 1 then ("Male") else if sex = 2 then ("Female") else ("Unknown")

/-- Source lines 76-80: the five numeric fields of the second token.  Each
indexing of a too-short token (IndexError) or failed int() (ValueError) is an
exception, caught at line 116 — modelled as none. -/
def parseSecond (t2 : List Char) : Option (Int × Int × Int × Int × Int) :=
  (t2.get? 0).bind fun rc =>
  (pyInt [rc]).bind fun race =>
  (t2.get? 1).bind fun oc =>
  (pyInt [oc]).bind fun origin =>
  (t2.get? 2).bind fun sc =>
  (pyInt [sc]).bind fun sex =>
  (pyInt (pySlice t2 3 5)).bind fun age =>
  (pyInt (t2.drop 5)).map fun population => (race, origin, sex, age, population)

/-- Source lines 71-73 and 102-115: the record returned on success. -/
def mkRecord (first_part : List Char) (year race origin sex age population : Int) :
    Record :=
  { Year := year
  , State := String.mk (pySlice first_part 4 6)
  , State_FIPS := String.mk (pySlice first_part 6 8)
  , County_FIPS := String.mk (pySlice first_part 8 11)
  , Race_Code := race
  , Race := race_desc_of year race
  , Origin_Code := origin
  , Origin := origin_desc_of year origin
  , Sex_Code := sex
  , Sex := sex_desc_of sex
  , Age := age
  , Population := population }

/-- Source lines 52-119 after the split: token-count check, year parse, year
filter, second-token fields, vocabularies. -/
def parse_tokens (parts : List (List Char)) (year_filter : YearFilter) :
    ParseOutcome :=
  match parts with
  | [first_part, second_part] =>
    match pyInt (pySlice first_part 0 4) with
    | Option.none => ParseOutcome.skipParseError
    | Option.some year =>
      if yearSkips year_filter year then ParseOutcome.skipFiltered
      else
        match parseSecond second_part with
        | Option.none => ParseOutcome.skipParseError
        | Option.some (race, origin, sex, age, population) =>
          ParseOutcome.ok (mkRecord first_part year race origin sex age population)
  | _ => ParseOutcome.skipMalformed

/-- Source lines 41-119: parse one line of the SEER population file. -/
def parse_line (line : String) (year_filter : YearFilter) : ParseOutcome :=
  parse_tokens (splitWs line.data) year_filter

/-- Running state of the read_in_chunks loop (source lines 135-157). -/
structure ChunkState where
  buffer : List Record
  processed : Nat
  skipped : Nat
  batches : List (List Record)
deriving DecidableEq, Repr

def initState : ChunkState :=
  { buffer := [], processed := 0, skipped := 0, batches := [] }

/-- Source lines 140-148: strip the line; a non-blank line is parsed and
either appended (processed) or counted as skipped. -/
def applyLine (year_filter : YearFilter) (st : ChunkState) (raw : String) :
    ChunkState :=
  let stripped := pyStrip raw.data
  if stripped.isEmpty then st
  else
    match parse_line (String.mk stripped) year_filter with
    | ParseOutcome.ok r =>
      { st with buffer := st.buffer ++ [r], processed := st.processed + 1 }
    | _ => { st with skipped := st.skipped + 1 }

/-- Source lines 150-153: when the buffer has reached chunk_size, yield it as
a batch and start a new one.  This check runs on every line, blank or not. -/
def maybeFlush (chunk_size : Int) (st : ChunkState) : ChunkState :=
  if (st.buffer.length : Int) ≥ chunk_size then
    { st with batches := st.batches ++ [st.buffer], buffer := [] }
  else st

def stepLine (year_filter : YearFilter) (chunk_size : Int) (st : ChunkState)
    (raw : String) : ChunkState :=
  maybeFlush chunk_size (applyLine year_filter st raw)

/-- Chunk state with one more skipped line; measure used to state how a
skipped line changes the run. -/
def bumpSkip (st : ChunkState) : ChunkState :=
  { st with skipped := st.skipped + 1 }

/-- Result of exhausting read_in_chunks: all yielded batches in order, plus
the final counters. -/
structure RunResult where
  batches : List (List Record)
  processed : Nat
  skipped : Nat
deriving DecidableEq, Repr

/-- Source lines 122-157: read the file, yielding batches of parsed records;
the final partial buffer is yielded when nonempty (lines 155-157). -/
def read_in_chunks (file : List String) (year_filter : YearFilter)
    (chunk_size : Int) : RunResult :=
  let st := file.foldl (stepLine year_filter chunk_size) initState
  { batches := st.batches ++ (if st.buffer.isEmpty then [] else [st.buffer])
  , processed := st.processed
  , skipped := st.skipped }

/-- The records a file decodes to, in file order: one per non-blank line
whose parse succeeds. -/
def decodeLine (year_filter : YearFilter) (raw : String) : Option Record :=
  let stripped := pyStrip raw.data
  if stripped.isEmpty then Option.none
  else
    match parse_line (String.mk stripped) year_filter with
    | ParseOutcome.ok r => Option.some r
    | _ => Option.none

def decodedRecords (file : List String) (year_filter : YearFilter) :
    List Record :=
  file.filterMap (decodeLine year_filter)

def isNonBlank (raw : String) : Bool := !(pyStrip raw.data).isEmpty

/-- Number of lines that remain non-blank after trimming. -/
def nonBlankCount (file : List String) : Nat :=
  (file.filter isNonBlank).length

/-- Polars dtypes used by the declared schema (source lines 188-202). -/
inductive DType where
  | int16
  | categorical
  | uint8
  | int32
deriving DecidableEq, Repr

/-- Source lines 189-202: the declared schema, in declaration order. -/
def schema : List (String × DType) :=
  [ (("Year"), DType.int16)
  , (("State"), DType.categorical)
  , (("State_FIPS"), DType.categorical)
  , (("County_FIPS"), DType.categorical)
  , (("Race_Code"), DType.uint8)
  , (("Race"), DType.categorical)
  , (("Origin_Code"), DType.uint8)
  , (("Origin"), DType.categorical)
  , (("Sex_Code"), DType.uint8)
  , (("Sex"), DType.categorical)
  , (("Age"), DType.uint8)
  , (("Population"), DType.int32) ]

/-- Model of the returned polars DataFrame: its schema and its rows. -/
structure DataFrame where
  schemaCols : List (String × DType)
  rows : List Record
deriving DecidableEq, Repr

/-- Source lines 226-227: the optional filter expression applied to a chunk;
modelled as a row predicate. -/
def filterOpt (filter_expr : Option (Record → Bool)) (rows : List Record) :
    List Record :=
  match filter_expr with
  | Option.none => rows
  | Option.some p => rows.filter p

/-- Source lines 215-240 (in-memory path): the chunks appended to dfs —
nonempty batches whose filtered result is nonempty. -/
def surviving_chunks (file : List String) (year_filter : YearFilter)
    (filter_expr : Option (Record → Bool)) (chunk_size : Int) :
    List (List Record) :=
  (((read_in_chunks file year_filter chunk_size).batches.filter
      (fun chunk => !chunk.isEmpty)).map
    (filterOpt filter_expr)).filter (fun rows => !rows.isEmpty)

/-- Source lines 160-265, in-memory path (no parquet spill, no CSV): the
final DataFrame, or an empty one with the declared schema when no chunk
survived (lines 243-245). -/
def process_seer_population_data (file : List String) (year_filter : YearFilter)
    (filter_expr : Option (Record → Bool)) (chunk_size : Int) : DataFrame :=
  let dfs := surviving_chunks file year_filter filter_expr chunk_size
  if dfs.isEmpty then { schemaCols := schema, rows := [] }
  else { schemaCols := schema, rows := dfs.flatten }

/-- Example line from the spec's first scenario. -/
def exampleLine : String := "2011US01001 102500000123"

/-- Example line from the spec's ParseError scenario (non-numeric origin and
sex digits). -/
def badDigitLine : String := "1985US01001 1XX5000005"

/-- A two-token line whose first token has only 8 of the 11 declared
characters. -/
def shortFirstLine : String := "2011US01 102500000123"

/-- A two-token line whose second token has only 5 of the at least 6
required characters. -/
def shortSecondLine : String := "2011US01001 10250"

/-- The blank line. -/
def blankLine : String := ""

/-- First token of `shortSecondLine`. -/
def tok2011US01001 : List Char := (("2011US01001" : String)).data

/-- Second token of `shortSecondLine`. -/
def tok10250 : List Char := (("10250" : String)).data

/-- The record the spec's example line decodes to. -/
def exampleRecord : Record :=
  { Year := 2011
  , State := ("US")
  , State_FIPS := ("01")
  , County_FIPS := ("001")
  , Race_Code := 1
  , Race := ("White")
  , Origin_Code := 0
  , Origin := ("Non-Hispanic")
  , Sex_Code := 2
  , Sex := ("Female")
  , Age := 50
  , Population := 123 }

theorem bind_const_none {α β : Type} (o : Option α) :
    o.bind (fun _ => (Option.none : Option β)) = Option.none := by
  cases o <;> rfl

/-- Unfolding parse_line at a two-token split. -/
theorem parse_line_two_tokens (line : String) (year_filter : YearFilter)
    (t1 t2 : List Char) (h : splitWs line.data = [t1, t2]) :
    parse_line line year_filter = parse_tokens [t1, t2] year_filter := by
  unfold parse_line
  rw [h]

/-- When two filters skip exactly the same years, parse_line cannot tell them
apart. -/
theorem parse_tokens_filter_congr (parts : List (List Char))
    (yf1 yf2 : YearFilter)
    (hy : ∀ year, yearSkips yf1 year = yearSkips yf2 year) :
    parse_tokens parts yf1 = parse_tokens parts yf2 := by
  match parts with
  | [] => rfl
  | [a] => rfl
  | a :: b :: c :: rest => rfl
  | [a, b] =>
    simp only [parse_tokens]
    cases pyInt (pySlice a 0 4) with
    | none => rfl
    | some year => simp only [hy]

/-- A filter that skips no year never produces the FilteredOut outcome. -/
theorem parse_tokens_no_filter (parts : List (List Char)) (yf : YearFilter)
    (hy : ∀ year, yearSkips yf year = false) :
    parse_tokens parts yf ≠ ParseOutcome.skipFiltered := by
  match parts with
  | [] => simp [parse_tokens]
  | [a] => simp [parse_tokens]
  | a :: b :: c :: rest => simp [parse_tokens]
  | [a, b] =>
    simp only [parse_tokens]
    cases pyInt (pySlice a 0 4) with
    | none => simp
    | some year =>
      simp only [hy year, if_false]
      cases parseSecond b with
      | none => simp
      | some tup =>
        obtain ⟨race, origin, sex, age, population⟩ := tup
        simp

/-- C1: the spec's example line, with year_filter 2011, decodes to exactly
the record the spec lists: Year 2011, State US, StateFIPS 01, CountyFIPS 001,
RaceCode 1 White, OriginCode 0 Non-Hispanic, SexCode 2 Female, Age 50,
Population 123. -/
theorem parse_example_line_decodes :
    parse_line exampleLine (YearFilter.int 2011) =
      ParseOutcome.ok
        { Year := 2011
        , State := ("US")
        , State_FIPS := ("01")
        , County_FIPS := ("001")
        , Race_Code := 1
        , Race := ("White")
        , Origin_Code := 0
        , Origin := ("Non-Hispanic")
        , Sex_Code := 2
        , Sex := ("Female")
        , Age := 50
        , Population := 123 } := by
  rfl

/-- C3: a scalar year filter y and the singleton set filter containing y
decode every line identically, and the None filter never yields the
FilteredOut outcome. -/
theorem parse_line_singleton_filter_equiv (line : String) (y : Int) :
    parse_line line (YearFilter.int y) = parse_line line (YearFilter.set [y])
    ∧ parse_line line YearFilter.none ≠ ParseOutcome.skipFiltered := by
  constructor
  · unfold parse_line
    apply parse_tokens_filter_congr
    intro year
    by_cases h : year = y <;> simp [yearSkips, h]
  · unfold parse_line
    apply parse_tokens_no_filter
    intro year
    rfl

/-- C10: a year_filter that is neither an int nor a set (a list, tuple or
frozenset of years) fails both isinstance tests, so parse_line decodes every
line exactly as if year_filter were None, admitting every year. -/
theorem parse_line_unsupported_filter_admits_all (line : String) :
    parse_line line YearFilter.other = parse_line line YearFilter.none := by
  unfold parse_line
  apply parse_tokens_filter_congr
  intro year
  rfl

/-- C9 counterexample: a two-token line whose first token has only 8 of the
declared 11 characters is not rejected with a parse error; it decodes to a
record whose CountyFIPS is the empty string. -/
theorem short_first_token_cx :
    parse_line shortFirstLine YearFilter.none =
      ParseOutcome.ok
        { Year := 2011
        , State := ("US")
        , State_FIPS := ("01")
        , County_FIPS := ("")
        , Race_Code := 1
        , Race := ("White")
        , Origin_Code := 0
        , Origin := ("Non-Hispanic")
        , Sex_Code := 2
        , Sex := ("Female")
        , Age := 50
        , Population := 123 }
    ∧ parse_line shortFirstLine YearFilter.none ≠ ParseOutcome.skipParseError := by
  constructor
  · rfl
  · decide

/-- C7 counterexample: with chunk_size 0 (an invalid value the code never
rejects) a single blank line makes read_in_chunks yield one empty batch. -/
theorem read_in_chunks_empty_batch_cx :
    (read_in_chunks [blankLine] YearFilter.none 0).batches = [[]] := by
  rfl

/-- Every record parse_line returns was built by mkRecord, so its three
description fields are the vocabulary lookups at its own Year and codes. -/
theorem parse_line_ok_desc (line : String) (yf : YearFilter) (r : Record)
    (h : parse_line line yf = ParseOutcome.ok r) :
    r.Race = race_desc_of r.Year r.Race_Code
    ∧ r.Origin = origin_desc_of r.Year r.Origin_Code
    ∧ r.Sex = sex_desc_of r.Sex_Code := by
  unfold parse_line parse_tokens at h
  split at h
  · split at h
    · simp at h
    · split at h
      · simp at h
      · split at h
        · simp at h
        · rw [ParseOutcome.ok.injEq] at h
          subst h
          exact ⟨rfl, rfl, rfl⟩
  · simp at h

/-- C4: every successfully decoded record carries the year-dependent
vocabularies: before 1990 the three-value race table and Origin fixed to
Not Applicable; from 1990 on the four-value race table and the origin
table; unmapped codes map to Unknown; Sex uses 1 Male / 2 Female. -/
theorem parse_line_vocabularies (line : String) (yf : YearFilter) (r : Record)
    (h : parse_line line yf = ParseOutcome.ok r) :
    (r.Year < 1990 →
        r.Race = (if r.Race_Code = 1 then ("White")
          else if r.Race_Code = 2 then ("Black")
          else if r.Race_Code = 3 then ("Other") else ("Unknown"))
      ∧ r.Origin = ("Not Applicable"))
    ∧ (1990 ≤ r.Year →
        r.Race = (if r.Race_Code = 1 then ("White")
          else if r.Race_Code = 2 then ("Black")
          else if r.Race_Code = 3 then ("American Indian/Alaska Native")
          else if r.Race_Code = 4 then ("Asian or Pacific Islander")
          else ("Unknown"))
      ∧ r.Origin = (if r.Origin_Code = 0 then ("Non-Hispanic")
          else if r.Origin_Code = 1 then ("Hispanic")
          else if r.Origin_Code = 9 then ("Not Applicable") else ("Unknown")))
    ∧ r.Sex = (if r.Sex_Code = 1 then ("Male")
        else if r.Sex_Code = 2 then ("Female") else ("Unknown")) := by
  obtain ⟨hrace, horigin, hsex⟩ := parse_line_ok_desc line yf r h
  refine ⟨fun hy => ⟨?_, ?_⟩, fun hy => ⟨?_, ?_⟩, ?_⟩
  · rw [hrace, race_desc_of, if_pos hy]
  · rw [horigin, origin_desc_of, if_neg (not_le.mpr hy)]
  · rw [hrace, race_desc_of, if_neg (not_lt.mpr hy)]
  · rw [horigin, origin_desc_of, if_pos hy]
  · rw [hsex, sex_desc_of]

theorem parse_line_vocabularies_witness :
    parse_line exampleLine YearFilter.none = ParseOutcome.ok exampleRecord
    ∧ ((exampleRecord.Year < 1990 →
        exampleRecord.Race = (if exampleRecord.Race_Code = 1 then ("White")
          else if exampleRecord.Race_Code = 2 then ("Black")
          else if exampleRecord.Race_Code = 3 then ("Other") else ("Unknown"))
      ∧ exampleRecord.Origin = ("Not Applicable"))
    ∧ (1990 ≤ exampleRecord.Year →
        exampleRecord.Race = (if exampleRecord.Race_Code = 1 then ("White")
          else if exampleRecord.Race_Code = 2 then ("Black")
          else if exampleRecord.Race_Code = 3 then ("American Indian/Alaska Native")
          else if exampleRecord.Race_Code = 4 then ("Asian or Pacific Islander")
          else ("Unknown"))
      ∧ exampleRecord.Origin = (if exampleRecord.Origin_Code = 0 then ("Non-Hispanic")
          else if exampleRecord.Origin_Code = 1 then ("Hispanic")
          else if exampleRecord.Origin_Code = 9 then ("Not Applicable")
          else ("Unknown")))
    ∧ exampleRecord.Sex = (if exampleRecord.Sex_Code = 1 then ("Male")
        else if exampleRecord.Sex_Code = 2 then ("Female") else ("Unknown"))) :=
  ⟨rfl, parse_line_vocabularies exampleLine YearFilter.none exampleRecord rfl⟩

/-- A second token shorter than 6 characters cannot supply all five numeric
fields. -/
theorem parseSecond_short (t2 : List Char) (hlen : t2.length < 6) :
    parseSecond t2 = Option.none := by
  have hdrop : t2.drop 5 = [] := List.drop_eq_nil_of_le (by omega)
  unfold parseSecond
  rw [hdrop]
  simp [show pyInt [] = (Option.none : Option Int) from rfl, bind_const_none]

/-- C9 as amended: a two-token line whose year parses and passes the filter
but whose second token is shorter than the 6 characters needed for the race,
origin, sex, age and population fields is skipped with a parse error.  (The
first token's widths are not checked: see the counterexample.) -/
theorem short_second_token_parse_error (line : String) (yf : YearFilter)
    (t1 t2 : List Char) (year : Int)
    (hsplit : splitWs line.data = [t1, t2])
    (hyear : pyInt (pySlice t1 0 4) = Option.some year)
    (hpass : yearSkips yf year = false)
    (hlen : t2.length < 6) :
    parse_line line yf = ParseOutcome.skipParseError := by
  rw [parse_line_two_tokens line yf t1 t2 hsplit]
  simp [parse_tokens, hyear, hpass, parseSecond_short t2 hlen]

theorem short_second_token_parse_error_witness :
    splitWs shortSecondLine.data = [tok2011US01001, tok10250]
    ∧ pyInt (pySlice tok2011US01001 0 4) = Option.some 2011
    ∧ yearSkips YearFilter.none 2011 = false
    ∧ tok10250.length < 6
    ∧ parse_line shortSecondLine YearFilter.none = ParseOutcome.skipParseError :=
  ⟨rfl, rfl, rfl, by decide,
    short_second_token_parse_error shortSecondLine YearFilter.none
      tok2011US01001 tok10250 2011 rfl rfl rfl (by decide)⟩

theorem maybeFlush_processed (cs : Int) (st : ChunkState) :
    (maybeFlush cs st).processed = st.processed := by
  unfold maybeFlush
  split <;> rfl

theorem maybeFlush_skipped (cs : Int) (st : ChunkState) :
    (maybeFlush cs st).skipped = st.skipped := by
  unfold maybeFlush
  split <;> rfl

theorem applyLine_batches (yf : YearFilter) (st : ChunkState) (l : String) :
    (applyLine yf st l).batches = st.batches := by
  simp only [applyLine]
  split
  · rfl
  · split <;> rfl

theorem applyLine_counters (yf : YearFilter) (st : ChunkState) (l : String) :
    (applyLine yf st l).processed + (applyLine yf st l).skipped
      = st.processed + st.skipped + (if isNonBlank l then 1 else 0) := by
  simp only [applyLine, isNonBlank]
  by_cases h : (pyStrip l.data).isEmpty
  · simp [h]
  · simp only [h, Bool.false_eq_true, if_false, Bool.not_false, if_true]
    cases hp : parse_line (String.mk (pyStrip l.data)) yf <;> simp <;> omega

theorem stepLine_counters (yf : YearFilter) (cs : Int) (st : ChunkState)
    (l : String) :
    (stepLine yf cs st l).processed + (stepLine yf cs st l).skipped
      = st.processed + st.skipped + (if isNonBlank l then 1 else 0) := by
  unfold stepLine
  rw [maybeFlush_processed, maybeFlush_skipped, applyLine_counters]

theorem nonBlankCount_cons (l : String) (ls : List String) :
    nonBlankCount (l :: ls) = (if isNonBlank l then 1 else 0) + nonBlankCount ls := by
  simp only [nonBlankCount, List.filter_cons]
  split <;> simp [Nat.add_comm]

theorem foldl_counters (yf : YearFilter) (cs : Int) :
    ∀ (file : List String) (st : ChunkState),
      (file.foldl (stepLine yf cs) st).processed
        + (file.foldl (stepLine yf cs) st).skipped
      = st.processed + st.skipped + nonBlankCount file := by
  intro file
  induction file with
  | nil => intro st; simp [nonBlankCount]
  | cons l ls ih =>
    intro st
    rw [List.foldl_cons, ih, stepLine_counters, nonBlankCount_cons]
    omega

/-- C2: after read_in_chunks exhausts its input, processed plus skipped is
exactly the number of lines that are non-blank after trimming; blank lines
touch neither counter. -/
theorem read_in_chunks_conservation (file : List String) (yf : YearFilter)
    (cs : Int) (h : (1 : Int) ≤ cs) :
    (read_in_chunks file yf cs).processed + (read_in_chunks file yf cs).skipped
      = nonBlankCount file := by
  unfold read_in_chunks
  simpa [initState] using foldl_counters yf cs file initState

theorem read_in_chunks_conservation_witness :
    (1 : Int) ≤ 1
    ∧ (read_in_chunks [exampleLine, blankLine, badDigitLine] YearFilter.none 1).processed
        + (read_in_chunks [exampleLine, blankLine, badDigitLine] YearFilter.none 1).skipped
      = nonBlankCount [exampleLine, blankLine, badDigitLine] :=
  ⟨by decide,
    read_in_chunks_conservation [exampleLine, blankLine, badDigitLine]
      YearFilter.none 1 (by decide)⟩

theorem maybeFlush_flatten (cs : Int) (st : ChunkState) :
    (maybeFlush cs st).batches.flatten ++ (maybeFlush cs st).buffer
      = st.batches.flatten ++ st.buffer := by
  unfold maybeFlush
  split
  · simp
  · rfl

theorem decodeLine_cons (yf : YearFilter) (l : String) (ls : List String) :
    decodedRecords (l :: ls) yf
      = (decodeLine yf l).toList ++ decodedRecords ls yf := by
  simp only [decodedRecords, List.filterMap_cons]
  cases decodeLine yf l <;> simp

theorem stepLine_flatten (yf : YearFilter) (cs : Int) (st : ChunkState)
    (l : String) :
    (stepLine yf cs st l).batches.flatten ++ (stepLine yf cs st l).buffer
      = st.batches.flatten ++ st.buffer ++ (decodeLine yf l).toList := by
  unfold stepLine
  rw [maybeFlush_flatten]
  simp only [applyLine, decodeLine]
  by_cases h : (pyStrip l.data).isEmpty
  · simp [h]
  · simp only [h, Bool.false_eq_true, if_false]
    cases hp : parse_line (String.mk (pyStrip l.data)) yf <;> simp

theorem foldl_flatten (yf : YearFilter) (cs : Int) :
    ∀ (file : List String) (st : ChunkState),
      (file.foldl (stepLine yf cs) st).batches.flatten
          ++ (file.foldl (stepLine yf cs) st).buffer
        = st.batches.flatten ++ st.buffer ++ decodedRecords file yf := by
  intro file
  induction file with
  | nil => intro st; simp [decodedRecords]
  | cons l ls ih =>
    intro st
    rw [List.foldl_cons, ih, stepLine_flatten, decodeLine_cons]
    simp [List.append_assoc]

/-- All records yielded across all batches, in order, are exactly the
decodable records of the file — for every chunk size. -/
theorem read_in_chunks_flatten (file : List String) (yf : YearFilter)
    (cs : Int) :
    (read_in_chunks file yf cs).batches.flatten = decodedRecords file yf := by
  simp only [read_in_chunks]
  have h2 : (file.foldl (stepLine yf cs) initState).batches.flatten
      ++ (file.foldl (stepLine yf cs) initState).buffer
      = decodedRecords file yf := by
    simpa [initState] using foldl_flatten yf cs file initState
  by_cases hb : (file.foldl (stepLine yf cs) initState).buffer.isEmpty
  · have hbe : (file.foldl (stepLine yf cs) initState).buffer = [] := by
      simpa using hb
    rw [hbe] at h2
    simp only [hb, if_true, List.append_nil] at h2 ⊢
    simpa using h2
  · simp only [hb, Bool.false_eq_true, if_false]
    rw [List.flatten_append]
    simpa using h2

theorem stepLine_batches_ne (yf : YearFilter) (cs : Int) (h1 : (1 : Int) ≤ cs)
    (st : ChunkState) (l : String)
    (hall : ∀ b ∈ st.batches, b ≠ []) :
    ∀ b ∈ (stepLine yf cs st l).batches, b ≠ [] := by
  unfold stepLine maybeFlush
  split
  · rename_i hge
    intro b hb
    rw [applyLine_batches] at hb
    rcases List.mem_append.mp hb with h | h
    · exact hall b h
    · simp only [List.mem_singleton] at h
      subst h
      intro hnil
      rw [hnil] at hge
      simp at hge
      omega
  · intro b hb
    rw [applyLine_batches] at hb
    exact hall b hb

theorem foldl_batches_ne (yf : YearFilter) (cs : Int) (h1 : (1 : Int) ≤ cs) :
    ∀ (file : List String) (st : ChunkState),
      (∀ b ∈ st.batches, b ≠ []) →
      ∀ b ∈ (file.foldl (stepLine yf cs) st).batches, b ≠ [] := by
  intro file
  induction file with
  | nil => intro st hall; exact hall
  | cons l ls ih =>
    intro st hall
    rw [List.foldl_cons]
    exact ih _ (stepLine_batches_ne yf cs h1 st l hall)

theorem read_in_chunks_batches_ne (file : List String) (yf : YearFilter)
    (cs : Int) (h1 : (1 : Int) ≤ cs) :
    ∀ b ∈ (read_in_chunks file yf cs).batches, b ≠ [] := by
  unfold read_in_chunks
  intro b hb
  rcases List.mem_append.mp hb with h | h
  · exact foldl_batches_ne yf cs h1 file initState (by simp [initState]) b h
  · split at h
    · simp at h
    · rename_i hne
      simp only [List.mem_singleton] at h
      subst h
      intro hnil
      rw [hnil] at hne
      simp at hne

theorem flatten_nil_of_ne {α : Type} (l : List (List α))
    (hne : ∀ b ∈ l, b ≠ []) (h : l.flatten = []) : l = [] := by
  cases l with
  | nil => rfl
  | cons b t =>
    rw [List.flatten_cons] at h
    rcases List.append_eq_nil.mp h with ⟨hb, _⟩
    exact absurd hb (hne b (List.mem_cons_self b t))

/-- C7 as amended: for chunk_size at least 1, read_in_chunks never yields an
empty batch, and with zero decodable lines it yields nothing at all.  The
code does not reject chunk_size at most 0 (there is no ConfigurationError in
it); for such sizes it does yield empty batches — see the counterexample. -/
theorem read_in_chunks_no_empty_batches (file : List String) (yf : YearFilter)
    (cs : Int) (h1 : (1 : Int) ≤ cs) :
    [] ∉ (read_in_chunks file yf cs).batches
    ∧ (decodedRecords file yf = [] → (read_in_chunks file yf cs).batches = []) := by
  constructor
  · intro hmem
    exact read_in_chunks_batches_ne file yf cs h1 [] hmem rfl
  · intro hdec
    refine flatten_nil_of_ne _ (read_in_chunks_batches_ne file yf cs h1) ?_
    rw [read_in_chunks_flatten]
    exact hdec

theorem read_in_chunks_no_empty_batches_witness :
    (1 : Int) ≤ 1
    ∧ ([] ∉ (read_in_chunks [exampleLine, blankLine] YearFilter.none 1).batches
      ∧ (decodedRecords [exampleLine, blankLine] YearFilter.none = [] →
          (read_in_chunks [exampleLine, blankLine] YearFilter.none 1).batches = [])) :=
  ⟨by decide,
    read_in_chunks_no_empty_batches [exampleLine, blankLine] YearFilter.none 1
      (by decide)⟩

theorem flatten_filter_ne {α : Type} (l : List (List α)) :
    (l.filter (fun b => !b.isEmpty)).flatten = l.flatten := by
  induction l with
  | nil => rfl
  | cons b t ih =>
    rw [List.filter_cons]
    by_cases hb : b.isEmpty
    · have hbe : b = [] := by simpa using hb
      simp [hb, hbe, ih]
    · simp [hb, ih]

theorem filter_flatten {α : Type} (p : α → Bool) (l : List (List α)) :
    (l.map (List.filter p)).flatten = (l.flatten).filter p := by
  induction l with
  | nil => rfl
  | cons b t ih =>
    rw [List.map_cons, List.flatten_cons, List.flatten_cons,
      List.filter_append, ih]

theorem filterOpt_flatten (fe : Option (Record → Bool)) (l : List (List Record)) :
    (l.map (filterOpt fe)).flatten = filterOpt fe l.flatten := by
  cases fe with
  | none =>
    have hfe : filterOpt (Option.none : Option (Record → Bool))
        = fun rows => rows := funext fun rows => rfl
    rw [hfe]
    simp
  | some p =>
    have hfe : filterOpt (Option.some p) = List.filter p :=
      funext fun rows => rfl
    rw [hfe]
    exact filter_flatten p l

/-- The rows retained by all surviving chunks, concatenated in order, are
exactly the filtered decodable records of the file — for every chunk size. -/
theorem surviving_chunks_flatten (file : List String) (yf : YearFilter)
    (fe : Option (Record → Bool)) (cs : Int) :
    (surviving_chunks file yf fe cs).flatten
      = filterOpt fe (decodedRecords file yf) := by
  unfold surviving_chunks
  rw [flatten_filter_ne, filterOpt_flatten, flatten_filter_ne,
    read_in_chunks_flatten]

theorem surviving_chunks_ne (file : List String) (yf : YearFilter)
    (fe : Option (Record → Bool)) (cs : Int) :
    ∀ rows ∈ surviving_chunks file yf fe cs, rows ≠ [] := by
  intro rows hrows
  have := (List.mem_filter.mp hrows).2
  intro hnil
  rw [hnil] at this
  simp at this

/-- The in-memory pipeline always returns the declared schema with exactly
the filtered decodable rows, independently of how they were chunked. -/
theorem process_eq (file : List String) (yf : YearFilter)
    (fe : Option (Record → Bool)) (cs : Int) :
    process_seer_population_data file yf fe cs
      = { schemaCols := schema
        , rows := filterOpt fe (decodedRecords file yf) } := by
  simp only [process_seer_population_data]
  by_cases hd : (surviving_chunks file yf fe cs).isEmpty
  · have hde : surviving_chunks file yf fe cs = [] := by simpa using hd
    have : filterOpt fe (decodedRecords file yf) = [] := by
      rw [← surviving_chunks_flatten file yf fe cs, hde]
      rfl
    simp [hd, this]
  · simp only [hd, Bool.false_eq_true, if_false]
    rw [← surviving_chunks_flatten file yf fe cs]

/-- C8: for a fixed file, year filter and predicate, the rows of the final
dataset are identical (even in order) for chunk_size 1 and chunk_size
100000: chunk granularity does not change which rows survive or their
content. -/
theorem process_chunk_size_invariance (file : List String) (yf : YearFilter)
    (fe : Option (Record → Bool)) :
    process_seer_population_data file yf fe 1
      = process_seer_population_data file yf fe 100000 := by
  rw [process_eq, process_eq]

/-- C6: when no chunk survives the year filter and predicate, the result is
a normally returned DataFrame with zero rows that still carries the full
declared 12-column schema with its declared types. -/
theorem process_empty_schema (file : List String) (yf : YearFilter)
    (fe : Option (Record → Bool)) (cs : Int)
    (h : surviving_chunks file yf fe cs = []) :
    process_seer_population_data file yf fe cs
      = { schemaCols :=
            [ (("Year"), DType.int16)
            , (("State"), DType.categorical)
            , (("State_FIPS"), DType.categorical)
            , (("County_FIPS"), DType.categorical)
            , (("Race_Code"), DType.uint8)
            , (("Race"), DType.categorical)
            , (("Origin_Code"), DType.uint8)
            , (("Origin"), DType.categorical)
            , (("Sex_Code"), DType.uint8)
            , (("Sex"), DType.categorical)
            , (("Age"), DType.uint8)
            , (("Population"), DType.int32) ]
        , rows := [] } := by
  simp only [process_seer_population_data, h]
  rfl

theorem process_empty_schema_witness :
    surviving_chunks [exampleLine] (YearFilter.int 2010) Option.none 1 = []
    ∧ process_seer_population_data [exampleLine] (YearFilter.int 2010)
        Option.none 1
      = { schemaCols :=
            [ (("Year"), DType.int16)
            , (("State"), DType.categorical)
            , (("State_FIPS"), DType.categorical)
            , (("County_FIPS"), DType.categorical)
            , (("Race_Code"), DType.uint8)
            , (("Race"), DType.categorical)
            , (("Origin_Code"), DType.uint8)
            , (("Origin"), DType.categorical)
            , (("Sex_Code"), DType.uint8)
            , (("Sex"), DType.categorical)
            , (("Age"), DType.uint8)
            , (("Population"), DType.int32) ]
        , rows := [] } :=
  ⟨rfl,
    process_empty_schema [exampleLine] (YearFilter.int 2010) Option.none 1 rfl⟩

theorem applyLine_bumpSkip (yf : YearFilter) (st : ChunkState) (l : String) :
    applyLine yf (bumpSkip st) l = bumpSkip (applyLine yf st l) := by
  simp only [applyLine, bumpSkip]
  by_cases h : (pyStrip l.data).isEmpty
  · simp [h]
  · simp only [h, Bool.false_eq_true, if_false]
    cases hp : parse_line (String.mk (pyStrip l.data)) yf <;> rfl

theorem maybeFlush_bumpSkip (cs : Int) (st : ChunkState) :
    maybeFlush cs (bumpSkip st) = bumpSkip (maybeFlush cs st) := by
  simp only [maybeFlush, bumpSkip]
  by_cases h : ((st.buffer.length : Int) ≥ cs)
  · simp [h]
  · simp [h]

theorem stepLine_bumpSkip (yf : YearFilter) (cs : Int) (st : ChunkState)
    (l : String) :
    stepLine yf cs (bumpSkip st) l = bumpSkip (stepLine yf cs st l) := by
  unfold stepLine
  rw [applyLine_bumpSkip, maybeFlush_bumpSkip]

theorem foldl_bumpSkip (yf : YearFilter) (cs : Int) :
    ∀ (lines : List String) (st : ChunkState),
      lines.foldl (stepLine yf cs) (bumpSkip st)
        = bumpSkip (lines.foldl (stepLine yf cs) st) := by
  intro lines
  induction lines with
  | nil => intro st; rfl
  | cons l ls ih =>
    intro st
    rw [List.foldl_cons, List.foldl_cons, stepLine_bumpSkip, ih]

theorem applyLine_buffer_le (yf : YearFilter) (st : ChunkState) (l : String) :
    (applyLine yf st l).buffer.length ≤ st.buffer.length + 1 := by
  simp only [applyLine]
  by_cases h : (pyStrip l.data).isEmpty
  · simp [h]
  · simp only [h, Bool.false_eq_true, if_false]
    cases hp : parse_line (String.mk (pyStrip l.data)) yf <;> simp

theorem maybeFlush_buffer_lt (cs : Int) (h1 : (1 : Int) ≤ cs) (st : ChunkState)
    (h : (st.buffer.length : Int) ≤ cs) :
    ((maybeFlush cs st).buffer.length : Int) < cs := by
  unfold maybeFlush
  split
  · simp only [List.length_nil]
    omega
  · rename_i hno
    omega

theorem stepLine_buffer_lt (yf : YearFilter) (cs : Int) (h1 : (1 : Int) ≤ cs)
    (st : ChunkState) (l : String) (h : (st.buffer.length : Int) < cs) :
    ((stepLine yf cs st l).buffer.length : Int) < cs := by
  unfold stepLine
  apply maybeFlush_buffer_lt cs h1
  have := applyLine_buffer_le yf st l
  omega

theorem foldl_buffer_lt (yf : YearFilter) (cs : Int) (h1 : (1 : Int) ≤ cs) :
    ∀ (lines : List String) (st : ChunkState),
      (st.buffer.length : Int) < cs →
      (((lines.foldl (stepLine yf cs) st).buffer.length : Int)) < cs := by
  intro lines
  induction lines with
  | nil => intro st h; exact h
  | cons l ls ih =>
    intro st h
    rw [List.foldl_cons]
    exact ih _ (stepLine_buffer_lt yf cs h1 st l h)

theorem stepLine_parse_error (yf : YearFilter) (cs : Int) (st : ChunkState)
    (l : String)
    (hne : (pyStrip l.data).isEmpty = false)
    (hp : parse_line (String.mk (pyStrip l.data)) yf = ParseOutcome.skipParseError)
    (hlt : (st.buffer.length : Int) < cs) :
    stepLine yf cs st l = bumpSkip st := by
  unfold stepLine
  have ha : applyLine yf st l = bumpSkip st := by
    simp [applyLine, hne, hp, bumpSkip]
  rw [ha]
  simp only [maybeFlush, bumpSkip]
  rw [if_neg (by omega : ¬((st.buffer.length : Int) ≥ cs))]

/-- C5: a non-blank line whose parse raises (outcome Skip(ParseError)) never
aborts the stream: inserting it anywhere leaves every batch and the
processed counter unchanged and adds exactly one to skipped. -/
theorem parse_error_line_skipped (yf : YearFilter) (cs : Int)
    (pre post : List String) (l : String)
    (h1 : (1 : Int) ≤ cs)
    (hne : (pyStrip l.data).isEmpty = false)
    (hp : parse_line (String.mk (pyStrip l.data)) yf = ParseOutcome.skipParseError) :
    read_in_chunks (pre ++ l :: post) yf cs
      = { batches := (read_in_chunks (pre ++ post) yf cs).batches
        , processed := (read_in_chunks (pre ++ post) yf cs).processed
        , skipped := (read_in_chunks (pre ++ post) yf cs).skipped + 1 } := by
  simp only [read_in_chunks, List.foldl_append, List.foldl_cons]
  rw [stepLine_parse_error yf cs _ l hne hp
    (foldl_buffer_lt yf cs h1 pre initState (by simp [initState]; omega))]
  rw [foldl_bumpSkip]
  rfl

theorem parse_error_line_skipped_witness :
    (1 : Int) ≤ 1
    ∧ (pyStrip badDigitLine.data).isEmpty = false
    ∧ parse_line (String.mk (pyStrip badDigitLine.data)) YearFilter.none
        = ParseOutcome.skipParseError
    ∧ read_in_chunks [exampleLine, badDigitLine, exampleLine] YearFilter.none 1
      = { batches :=
            (read_in_chunks [exampleLine, exampleLine] YearFilter.none 1).batches
        , processed :=
            (read_in_chunks [exampleLine, exampleLine] YearFilter.none 1).processed
        , skipped :=
            (read_in_chunks [exampleLine, exampleLine] YearFilter.none 1).skipped
              + 1 } :=
  ⟨by decide, rfl, rfl,
    parse_error_line_skipped YearFilter.none 1 [exampleLine] [exampleLine]
      badDigitLine (by decide) rfl rfl⟩
